import Mathlib

/-!
# Verification of `caffe2/operators/math_ops.cc`

A shallow embedding of the elementwise math operators (`Log`, `Sqr`, `Pow`)
registered in `caffe2/operators/math_ops.cc`: their operator schemas and
their gradient makers (`GetLogGradient`, `GetSqrGradient`, `GetPowGradient`),
together with theorems settling the specification claims about them.

Float-valued operator arguments are embedded as rationals (`ℚ`); every
arithmetic operation performed on them by this file (`exponent - 1` on the
literals that occur) is exact in IEEE single precision, so the embedding is
faithful on the values that arise.
-/

namespace Caffe2

/-- An operator argument, as built by `set_name` / `set_f` in the source.
Only float-valued arguments occur in `math_ops.cc`, so the payload is the
float field `f` (embedded as `ℚ`). -/
structure Argument where
  name : String
  f : ℚ
deriving DecidableEq, Repr

/-- An `OperatorDef` protobuf message as used by `math_ops.cc` via
`CreateOperatorDef(type, name, inputs, outputs, args)`: the operator type
name, an instance name, ordered input and output tensor names, and a list
of arguments. A forward operator instance is the same record. -/
structure OperatorDef where
  type : String
  name : String
  inputs : List String
  outputs : List String
  args : List Argument
deriving DecidableEq, Repr

/-- Modelled from the spec: `ArgumentHelper::GetSingleArgument<float>` from
`caffe2/utils/proto_utils.h` (not under `src/`): look up an argument by name
in the instance's argument list and return its float payload, or the given
default when the argument is absent. -/
def getSingleArgumentF (args : List Argument) (aname : String) (default : ℚ) : ℚ :=
  match args.find? (fun a => a.name == aname) with
  | some a => a.f
  | none => default

/-- Modelled from the spec: the gradient-name derivation of
`GradientMakerBase` (`caffe2/core/operator_gradient.h`, not under `src/`):
a gradient tensor name is the forward tensor name with a gradient suffix
(spec: inputs `["x"]`, outputs `["y"]` give `"x_grad"`, `"y_grad"`). -/
def gradientName (n : String) : String := n ++ "_grad"

/-- `I(i)`: the i-th input tensor name of the forward instance. Gradient
makers assume schema-valid arity (spec §4.3), so out-of-range access is
given the harmless default `""`. -/
def I (d : OperatorDef) (i : Nat) : String := d.inputs.getD i ""

/-- `O(i)`: the i-th output tensor name of the forward instance. -/
def O (d : OperatorDef) (i : Nat) : String := d.outputs.getD i ""

/-- Modelled from the spec: `GI(i)`, the name of the gradient of the i-th
input, derived deterministically from the forward instance. -/
def GI (d : OperatorDef) (i : Nat) : String := gradientName (I d i)

/-- Modelled from the spec: `GO(i)`, the name of the gradient of the i-th
output, derived deterministically from the forward instance. -/
def GO (d : OperatorDef) (i : Nat) : String := gradientName (O d i)

/-- `GetLogGradient::GetGradientDefs` from `math_ops.cc`:
`SingleGradientDef("Div", "", {GO(0), I(0)}, {GI(0)})`. -/
def getLogGradientDefs (d : OperatorDef) : List OperatorDef :=
  [{ type := "Div", name := "", inputs := [GO d 0, I d 0],
     outputs := [GI d 0], args := [] }]

/-- `GetSqrGradient::GetGradientDefs` from `math_ops.cc`: a `Scale` def
scaling `GO(0)` in place by the literal float 2.0, then a `Mul` def with
inputs `{GO(0), I(0)}` and output `{GI(0)}`. -/
def getSqrGradientDefs (d : OperatorDef) : List OperatorDef :=
  let scale_arg : Argument := { name := "scale", f := 2 }
  [{ type := "Scale", name := "", inputs := [GO d 0],
     outputs := [GO d 0], args := [scale_arg] },
   { type := "Mul", name := "", inputs := [GO d 0, I d 0],
     outputs := [GI d 0], args := [] }]

/-- `GetPowGradient::GetGradientDefs` from `math_ops.cc`: read the forward
instance's `exponent` float argument with default 0.0, then emit
`Pow` (`{I(0)} -> {GI(0)}`, argument `exponent - 1`), `Mul`
(`{GI(0), GO(0)} -> {GI(0)}`), and `Scale` (`{GI(0)} -> {GI(0)}`,
argument `scale = exponent`). -/
def getPowGradientDefs (d : OperatorDef) : List OperatorDef :=
  let exponent : ℚ := getSingleArgumentF d.args "exponent" 0
  let scale_arg : Argument := { name := "scale", f := exponent }
  let pow_arg : Argument := { name := "exponent", f := exponent - 1 }
  [{ type := "Pow", name := "", inputs := [I d 0],
     outputs := [GI d 0], args := [pow_arg] },
   { type := "Mul", name := "", inputs := [GI d 0, GO d 0],
     outputs := [GI d 0], args := [] },
   { type := "Scale", name := "", inputs := [GI d 0],
     outputs := [GI d 0], args := [scale_arg] }]

/-- A gradient definition (spec §3): the ordered backward operator defs for
one forward instance, plus the `copy_arguments` flag (the source's
`GradientMakerBase::CopyArguments`, overridden to `false` by
`GetPowGradient` and left at the base default `true` by the other two
makers — the base default is modelled from the spec). -/
structure GradientDefinition where
  defs : List OperatorDef
  copy_arguments : Bool
deriving DecidableEq, Repr

/-- The error taxonomy of spec §7 that the registry interfaces surface. -/
inductive RegistryError where
  | UnknownOperator
  | MalformedInstance
  | UnsupportedElementType
deriving DecidableEq, Repr

/-- An operator schema as declared by the `OPERATOR_SCHEMA` builder chains
in `math_ops.cc`: `NumInputs(n)` sets `minInput = maxInput = n` (likewise
`NumOutputs`), `AllowInplace` records the allowed (input, output) aliasing
pairs, `IdenticalTypeAndShape` declares the output's type and shape
identical to input 0, and `Arg` records a declared argument name. -/
structure OperatorSchema where
  minInput : Nat
  maxInput : Nat
  minOutput : Nat
  maxOutput : Nat
  allowInplace : List (Nat × Nat)
  identicalTypeAndShape : Bool
  argNames : List String
deriving DecidableEq, Repr

/-- `OPERATOR_SCHEMA(Log)` from `math_ops.cc`: `.NumInputs(1).NumOutputs(1)
.AllowInplace({{0, 0}}).IdenticalTypeAndShape()`. -/
def logSchema : OperatorSchema :=
  { minInput := 1, maxInput := 1, minOutput := 1, maxOutput := 1,
    allowInplace := [(0, 0)], identicalTypeAndShape := true, argNames := [] }

/-- `OPERATOR_SCHEMA(Sqr)` from `math_ops.cc`: `.NumInputs(1).NumOutputs(1)
.AllowInplace({{0, 0}}).IdenticalTypeAndShape()`. -/
def sqrSchema : OperatorSchema :=
  { minInput := 1, maxInput := 1, minOutput := 1, maxOutput := 1,
    allowInplace := [(0, 0)], identicalTypeAndShape := true, argNames := [] }

/-- `OPERATOR_SCHEMA(Pow)` from `math_ops.cc`: `.NumInputs(1).NumOutputs(1)
.Arg("exponent", ...).AllowInplace({{0, 0}}).IdenticalTypeAndShape()`. -/
def powSchema : OperatorSchema :=
  { minInput := 1, maxInput := 1, minOutput := 1, maxOutput := 1,
    allowInplace := [(0, 0)], identicalTypeAndShape := true,
    argNames := ["exponent"] }

/-- `getSchema(typeName)` (spec §6): the schema registered by
`OPERATOR_SCHEMA` for the type name, or `UnknownOperator`. -/
def getSchema (tname : String) : Except RegistryError OperatorSchema :=
  if tname = "Log" then .ok logSchema
  else if tname = "Sqr" then .ok sqrSchema
  else if tname = "Pow" then .ok powSchema
  else .error .UnknownOperator

/-- Modelled from the spec: schema arity validation (the schema `Verify`
routine lives in `caffe2/core/operator_schema.cc`, not under `src/`).
An instance whose input count or output count falls outside the schema's
declared bounds is rejected with `MalformedInstance` (spec §7, §8). -/
def verifySchema (s : OperatorSchema) (d : OperatorDef) :
    Except RegistryError Unit :=
  if s.minInput ≤ d.inputs.length ∧ d.inputs.length ≤ s.maxInput ∧
      s.minOutput ≤ d.outputs.length ∧ d.outputs.length ≤ s.maxOutput then
    .ok ()
  else
    .error .MalformedInstance

/-- The numeric element types a functor can be requested at (spec §6). -/
inductive ElemType where
  | float
  | double
  | int32
  | int64
deriving DecidableEq, Repr

/-- The element types the `Log` CPU kernel is registered for:
`REGISTER_CPU_OPERATOR(Log, UnaryElementwiseOp<TensorTypes<float>, ...>)`
in `math_ops.cc`. -/
def logSupportedTypes : List ElemType := [.float]

/-- The element types the `Sqr` CPU kernel is registered for:
`REGISTER_CPU_OPERATOR(Sqr, UnaryElementwiseOp<TensorTypes<float>, ...>)`
in `math_ops.cc`. -/
def sqrSupportedTypes : List ElemType := [.float]

/-- The element types the `Pow` CPU kernel is registered for:
`REGISTER_CPU_OPERATOR(Pow, UnaryElementwiseWithArgsOp<TensorTypes<float>,
...>)` in `math_ops.cc`. -/
def powSupportedTypes : List ElemType := [.float]

/-- The three compute functors defined in `math_ops.cc`
(`LogCPUFunctor`, `SqrCPUFunctor`, and the `PowFunctor` used in the `Pow`
registration). -/
inductive CpuFunctor where
  | logF
  | sqrF
  | powF
deriving DecidableEq, Repr

/-- Modelled from the spec: `createFunctor(typeName, elementType)` (spec
§6) — the `TensorTypes<...>`-driven dispatch of `UnaryElementwiseOp` lives
outside `src/`; per the spec it returns the registered functor when the
element type is among the registration's supported types and fails with
`UnsupportedElementType` otherwise. -/
def createFunctor (tname : String) (t : ElemType) :
    Except RegistryError CpuFunctor :=
  if tname = "Log" then
    if t ∈ logSupportedTypes then .ok .logF else .error .UnsupportedElementType
  else if tname = "Sqr" then
    if t ∈ sqrSupportedTypes then .ok .sqrF else .error .UnsupportedElementType
  else if tname = "Pow" then
    if t ∈ powSupportedTypes then .ok .powF else .error .UnsupportedElementType
  else .error .UnknownOperator

/-- `makeGradient(typeName, instance)` (spec §6): dispatch on the operator
type name to the gradient maker registered by `REGISTER_GRADIENT` in
`math_ops.cc`, or fail with `UnknownOperator`. -/
def makeGradient (tname : String) (d : OperatorDef) :
    Except RegistryError GradientDefinition :=
  if tname = "Log" then .ok { defs := getLogGradientDefs d, copy_arguments := true }
  else if tname = "Sqr" then .ok { defs := getSqrGradientDefs d, copy_arguments := true }
  else if tname = "Pow" then .ok { defs := getPowGradientDefs d, copy_arguments := false }
  else .error .UnknownOperator

/-- Modelled from the spec: the executor's backward-synthesis path (spec
§2, §7) — schema validation runs before any gradient maker, so a
`MalformedInstance` rejection short-circuits gradient synthesis. -/
def makeGradientChecked (tname : String) (d : OperatorDef) :
    Except RegistryError GradientDefinition :=
  match getSchema tname with
  | .error e => .error e
  | .ok s =>
    match verifySchema s d with
    | .error e => .error e
    | .ok _ => makeGradient tname d

/-- Whether every tensor name mentioned by the backward def `op` is one of
the three names `I(0)`, `GO(0)`, `GI(0)` derived from the forward
instance `d`. -/
def usesOnlyDerivedNames (d : OperatorDef) (op : OperatorDef) : Bool :=
  (op.inputs ++ op.outputs).all
    (fun n => n == I d 0 || n == GO d 0 || n == GI d 0)

/-- Gradient names with the same suffix coincide only for equal base
names. -/
theorem gradientName_inj {a b : String} (h : gradientName a = gradientName b) :
    a = b := by
  unfold gradientName at h
  have hd : a.data ++ "_grad".data = b.data ++ "_grad".data := by
    simpa using congrArg String.data h
  exact String.ext (List.append_cancel_right hd)

/-- C1 counterexample: at the forward instance `Log(inputs ["x"], outputs
["y"])` the single emitted gradient operator has type `"Div"`, not
`"Divide"`, so the claim's required type string fails. -/
theorem log_gradient_type_div_counterexample :
    ((makeGradient "Log"
        { type := "Log", name := "", inputs := ["x"], outputs := ["y"],
          args := [] }).map
      (fun g => g.defs.map (fun op => op.type))) = .ok ["Div"] ∧
    ("Div" : String) ≠ "Divide" := by
  constructor
  · rfl
  · decide

/-- C1 (amended): for every forward instance with inputs `["x"]` and
outputs `["y"]`, `makeGradient "Log"` yields exactly one operator of type
`"Div"` with inputs `["y_grad", "x"]`, output `["x_grad"]`, and the
definition's `copy_arguments` flag is true. -/
theorem makeGradient_log_spec (d : OperatorDef)
    (hi : d.inputs = ["x"]) (ho : d.outputs = ["y"]) :
    makeGradient "Log" d =
      .ok { defs := [{ type := "Div", name := "", inputs := ["y_grad", "x"],
                       outputs := ["x_grad"], args := [] }],
            copy_arguments := true } := by
  simp [makeGradient, getLogGradientDefs, GO, GI, I, O, gradientName, hi, ho]

/-- C1 witness: the amended claim holds at the concrete instance
`Log(inputs ["x"], outputs ["y"])`. -/
theorem makeGradient_log_spec_witness :
    makeGradient "Log"
        { type := "Log", name := "", inputs := ["x"], outputs := ["y"],
          args := [] } =
      .ok { defs := [{ type := "Div", name := "", inputs := ["y_grad", "x"],
                       outputs := ["x_grad"], args := [] }],
            copy_arguments := true } :=
  makeGradient_log_spec _ rfl rfl

/-- C2 counterexample: at the forward instance `Sqr(inputs ["x"], outputs
["y"])` the second emitted gradient operator has type `"Mul"`, not
`"Multiply"`, so the claim's required type string fails. -/
theorem sqr_gradient_type_mul_counterexample :
    ((makeGradient "Sqr"
        { type := "Sqr", name := "", inputs := ["x"], outputs := ["y"],
          args := [] }).map
      (fun g => g.defs.map (fun op => op.type))) = .ok ["Scale", "Mul"] ∧
    ("Mul" : String) ≠ "Multiply" := by
  constructor
  · rfl
  · decide

/-- C2 (amended): for every forward instance with inputs `["x"]` and
outputs `["y"]`, `makeGradient "Sqr"` yields exactly two operators in
order: a `Scale` whose input and output are both `"y_grad"` with single
float argument `scale = 2.0`, then a `Mul` with inputs
`["y_grad", "x"]` and output `["x_grad"]`. -/
theorem makeGradient_sqr_spec (d : OperatorDef)
    (hi : d.inputs = ["x"]) (ho : d.outputs = ["y"]) :
    makeGradient "Sqr" d =
      .ok { defs :=
              [{ type := "Scale", name := "", inputs := ["y_grad"],
                 outputs := ["y_grad"],
                 args := [{ name := "scale", f := 2 }] },
               { type := "Mul", name := "", inputs := ["y_grad", "x"],
                 outputs := ["x_grad"], args := [] }],
            copy_arguments := true } := by
  simp [makeGradient, getSqrGradientDefs, GO, GI, I, O, gradientName, hi, ho]

/-- C2 witness: the amended claim holds at the concrete instance
`Sqr(inputs ["x"], outputs ["y"])`. -/
theorem makeGradient_sqr_spec_witness :
    makeGradient "Sqr"
        { type := "Sqr", name := "", inputs := ["x"], outputs := ["y"],
          args := [] } =
      .ok { defs :=
              [{ type := "Scale", name := "", inputs := ["y_grad"],
                 outputs := ["y_grad"],
                 args := [{ name := "scale", f := 2 }] },
               { type := "Mul", name := "", inputs := ["y_grad", "x"],
                 outputs := ["x_grad"], args := [] }],
            copy_arguments := true } :=
  makeGradient_sqr_spec _ rfl rfl

/-- C3 counterexample: at the forward instance `Pow(inputs ["x"], outputs
["y"], exponent = 3.0)` the second emitted gradient operator has type
`"Mul"`, not `"Multiply"`, so the claim's required type string fails. -/
theorem pow_gradient_type_mul_counterexample :
    ((makeGradient "Pow"
        { type := "Pow", name := "", inputs := ["x"], outputs := ["y"],
          args := [{ name := "exponent", f := 3 }] }).map
      (fun g => g.defs.map (fun op => op.type))) =
      .ok ["Pow", "Mul", "Scale"] ∧
    ("Mul" : String) ≠ "Multiply" := by
  constructor
  · rfl
  · decide

/-- C3 (amended): for every forward instance with inputs `["x"]`, outputs
`["y"]` and float argument `exponent = 3.0`, `makeGradient "Pow"` yields
three operators in order — `Pow` (input `"x"`, output `"x_grad"`,
`exponent = 2.0`), then `Mul` (inputs `["x_grad", "y_grad"]`, output
`["x_grad"]`), then `Scale` (input and output `"x_grad"`,
`scale = 3.0`) — and the definition's `copy_arguments` flag is false. -/
theorem makeGradient_pow_spec (d : OperatorDef)
    (hi : d.inputs = ["x"]) (ho : d.outputs = ["y"])
    (ha : d.args.find? (fun a => a.name == "exponent") =
      some { name := "exponent", f := 3 }) :
    makeGradient "Pow" d =
      .ok { defs :=
              [{ type := "Pow", name := "", inputs := ["x"],
                 outputs := ["x_grad"],
                 args := [{ name := "exponent", f := 2 }] },
               { type := "Mul", name := "", inputs := ["x_grad", "y_grad"],
                 outputs := ["x_grad"], args := [] },
               { type := "Scale", name := "", inputs := ["x_grad"],
                 outputs := ["x_grad"],
                 args := [{ name := "scale", f := 3 }] }],
            copy_arguments := false } := by
  simp [makeGradient, getPowGradientDefs, getSingleArgumentF, ha,
    GO, GI, I, O, gradientName, hi, ho]
  norm_num

/-- C3 witness: the amended claim holds at the concrete instance
`Pow(inputs ["x"], outputs ["y"], exponent = 3.0)`. -/
theorem makeGradient_pow_spec_witness :
    makeGradient "Pow"
        { type := "Pow", name := "", inputs := ["x"], outputs := ["y"],
          args := [{ name := "exponent", f := 3 }] } =
      .ok { defs :=
              [{ type := "Pow", name := "", inputs := ["x"],
                 outputs := ["x_grad"],
                 args := [{ name := "exponent", f := 2 }] },
               { type := "Mul", name := "", inputs := ["x_grad", "y_grad"],
                 outputs := ["x_grad"], args := [] },
               { type := "Scale", name := "", inputs := ["x_grad"],
                 outputs := ["x_grad"],
                 args := [{ name := "scale", f := 3 }] }],
            copy_arguments := false } :=
  makeGradient_pow_spec _ rfl rfl rfl

/-- C4: for every forward `Pow` instance carrying no `"exponent"`
argument, the maker reads the exponent as the default 0.0, the first
emitted `Pow` operator carries argument `exponent = -1.0`, and the emitted
`Scale` operator carries argument `scale = 0.0`. -/
theorem pow_gradient_missing_exponent_default (d : OperatorDef)
    (h : d.args.find? (fun a => a.name == "exponent") = none) :
    getSingleArgumentF d.args "exponent" 0 = 0 ∧
    (getPowGradientDefs d).map (fun op => op.args) =
      [[{ name := "exponent", f := -1 }], [],
       [{ name := "scale", f := 0 }]] := by
  constructor
  · simp [getSingleArgumentF, h]
  · simp [getPowGradientDefs, getSingleArgumentF, h]

/-- C4 witness: the default applies at the concrete argument-free instance
`Pow(inputs ["x"], outputs ["y"])`. -/
theorem pow_gradient_missing_exponent_default_witness :
    getSingleArgumentF
        (OperatorDef.args
          { type := "Pow", name := "", inputs := ["x"], outputs := ["y"],
            args := [] }) "exponent" 0 = 0 ∧
    (getPowGradientDefs
        { type := "Pow", name := "", inputs := ["x"], outputs := ["y"],
          args := [] }).map (fun op => op.args) =
      [[{ name := "exponent", f := -1 }], [],
       [{ name := "scale", f := 0 }]] :=
  pow_gradient_missing_exponent_default _ rfl

/-- C5: the registered schemas of `Log`, `Sqr`, and `Pow` each declare
exactly 1 input, exactly 1 output, permit in-place aliasing of
(input 0, output 0), and declare the output's type and shape identical to
input 0. -/
theorem unary_schemas_contract :
    (logSchema.minInput = 1 ∧ logSchema.maxInput = 1 ∧
     logSchema.minOutput = 1 ∧ logSchema.maxOutput = 1 ∧
     logSchema.allowInplace = [(0, 0)] ∧
     logSchema.identicalTypeAndShape = true) ∧
    (sqrSchema.minInput = 1 ∧ sqrSchema.maxInput = 1 ∧
     sqrSchema.minOutput = 1 ∧ sqrSchema.maxOutput = 1 ∧
     sqrSchema.allowInplace = [(0, 0)] ∧
     sqrSchema.identicalTypeAndShape = true) ∧
    (powSchema.minInput = 1 ∧ powSchema.maxInput = 1 ∧
     powSchema.minOutput = 1 ∧ powSchema.maxOutput = 1 ∧
     powSchema.allowInplace = [(0, 0)] ∧
     powSchema.identicalTypeAndShape = true) := by
  decide

/-- C6: gradient synthesis is deterministic — for each of the three
registered operator types, structurally identical forward instance data
yields structurally identical `GradientDefinition`s. -/
theorem makeGradient_deterministic (t : String) (d e : OperatorDef)
    (_ht : t = "Log" ∨ t = "Sqr" ∨ t = "Pow") (h : d = e) :
    makeGradient t d = makeGradient t e := by
  rw [h]

/-- C6 witness: determinism at the concrete instance
`Log(inputs ["x"], outputs ["y"])`. -/
theorem makeGradient_deterministic_witness :
    makeGradient "Log"
        { type := "Log", name := "", inputs := ["x"], outputs := ["y"],
          args := [] }
      = makeGradient "Log"
        { type := "Log", name := "", inputs := ["x"], outputs := ["y"],
          args := [] } :=
  makeGradient_deterministic "Log" _ _ (Or.inl rfl) rfl

/-- C7: for each of the three unary elementwise operator types, an
instance whose input count or output count is not 1 is rejected by schema
validation with `MalformedInstance` before the gradient maker runs. -/
theorem schema_validation_rejects_bad_arity (t : String) (d : OperatorDef)
    (ht : t = "Log" ∨ t = "Sqr" ∨ t = "Pow")
    (h : d.inputs.length ≠ 1 ∨ d.outputs.length ≠ 1) :
    makeGradientChecked t d = .error .MalformedInstance := by
  have hcond : ¬ (1 ≤ d.inputs.length ∧ d.inputs.length ≤ 1 ∧
      1 ≤ d.outputs.length ∧ d.outputs.length ≤ 1) := by omega
  rcases ht with rfl | rfl | rfl <;>
    simp [makeGradientChecked, getSchema, verifySchema, logSchema, sqrSchema,
      powSchema, hcond]

/-- C7 witness: a `Log` instance with two inputs is rejected. -/
theorem schema_validation_rejects_bad_arity_witness :
    makeGradientChecked "Log"
        { type := "Log", name := "", inputs := ["x", "z"], outputs := ["y"],
          args := [] } = .error .MalformedInstance :=
  schema_validation_rejects_bad_arity "Log" _ (Or.inl rfl) (Or.inl (by decide))

/-- C8: the CPU registrations of `Log`, `Sqr`, and `Pow` each support
exactly the float element type, and requesting a functor at any other
element type fails with `UnsupportedElementType`. -/
theorem cpu_registrations_float_only (t : ElemType) (ht : t ≠ .float) :
    logSupportedTypes = [.float] ∧ sqrSupportedTypes = [.float] ∧
    powSupportedTypes = [.float] ∧
    createFunctor "Log" t = .error .UnsupportedElementType ∧
    createFunctor "Sqr" t = .error .UnsupportedElementType ∧
    createFunctor "Pow" t = .error .UnsupportedElementType := by
  cases t
  · exact absurd rfl ht
  · exact ⟨rfl, rfl, rfl, rfl, rfl, rfl⟩
  · exact ⟨rfl, rfl, rfl, rfl, rfl, rfl⟩
  · exact ⟨rfl, rfl, rfl, rfl, rfl, rfl⟩

/-- C8 witness: an integer `Log` functor request fails. -/
theorem cpu_registrations_float_only_witness :
    logSupportedTypes = [.float] ∧ sqrSupportedTypes = [.float] ∧
    powSupportedTypes = [.float] ∧
    createFunctor "Log" .int32 = .error .UnsupportedElementType ∧
    createFunctor "Sqr" .int32 = .error .UnsupportedElementType ∧
    createFunctor "Pow" .int32 = .error .UnsupportedElementType :=
  cpu_registrations_float_only .int32 (by decide)

/-- C9: for every forward instance, every operator emitted by any of the
three gradient makers mentions only tensor names drawn from
`{I(0), GO(0), GI(0)}` of that forward instance — no fresh intermediate
names. -/
theorem gradient_defs_use_only_derived_names (d : OperatorDef) :
    ((getLogGradientDefs d).all (usesOnlyDerivedNames d) &&
     (getSqrGradientDefs d).all (usesOnlyDerivedNames d) &&
     (getPowGradientDefs d).all (usesOnlyDerivedNames d)) = true := by
  simp [getLogGradientDefs, getSqrGradientDefs, getPowGradientDefs,
    usesOnlyDerivedNames]

/-- C10 counterexample: for the in-place forward instance
`Pow(inputs ["x"], outputs ["x"])` — which the `Pow` schema's
`AllowInplace({{0, 0}})` permits — `GO(0) = "x_grad" = GI(0)`, so an
emitted gradient operator does list `GO(0)` as an output. -/
theorem pow_gradient_inplace_counterexample :
    ((getPowGradientDefs
        { type := "Pow", name := "", inputs := ["x"], outputs := ["x"],
          args := [] }).any
      (fun op => op.outputs.contains
        (GO { type := "Pow", name := "", inputs := ["x"], outputs := ["x"],
              args := [] } 0))) = true := by
  rfl

/-- C10 (amended): for every forward `Pow` instance, every operator
emitted by the `Pow` gradient maker has output list exactly `[GI(0)]`;
whenever the forward instance's input-0 name differs from its output-0
name, `GO(0)` is never a write target; and for an in-place forward
instance (input 0 = output 0, which the `Pow` schema's `AllowInplace`
permits), `GO(0)` and `GI(0)` are the same name and `GO(0)` is written by
every emitted operator. -/
theorem pow_gradient_outputs_only_gi (d : OperatorDef) :
    (∀ op ∈ getPowGradientDefs d, op.outputs = [GI d 0]) ∧
    (I d 0 ≠ O d 0 → ∀ op ∈ getPowGradientDefs d, GO d 0 ∉ op.outputs) ∧
    (I d 0 = O d 0 → GO d 0 = GI d 0 ∧
      ∀ op ∈ getPowGradientDefs d, GO d 0 ∈ op.outputs) := by
  refine ⟨?_, ?_, ?_⟩
  · intro op hop
    simp only [getPowGradientDefs, List.mem_cons, List.mem_singleton] at hop
    rcases hop with rfl | rfl | rfl | hop
    · rfl
    · rfl
    · rfl
    · cases hop
  · intro h op hop
    have hne : GO d 0 ≠ GI d 0 := fun hgo => h (gradientName_inj hgo).symm
    simp only [getPowGradientDefs, List.mem_cons, List.mem_singleton] at hop
    rcases hop with rfl | rfl | rfl | hop
    · simpa using hne
    · simpa using hne
    · simpa using hne
    · cases hop
  · intro h
    have hgo : GO d 0 = GI d 0 := by simp [GO, GI, h]
    refine ⟨hgo, ?_⟩
    intro op hop
    simp only [getPowGradientDefs, List.mem_cons, List.mem_singleton] at hop
    rcases hop with rfl | rfl | rfl | hop
    · simp [hgo]
    · simp [hgo]
    · simp [hgo]
    · cases hop

/-- C10 witness: at the non-in-place instance
`Pow(inputs ["x"], outputs ["y"])`, `GO(0)` is never written, and at the
in-place instance `Pow(inputs ["x"], outputs ["x"])`, `GO(0) = GI(0)` is
written by every emitted operator. -/
theorem pow_gradient_outputs_only_gi_witness :
    (∀ op ∈ getPowGradientDefs
        { type := "Pow", name := "", inputs := ["x"], outputs := ["y"],
          args := [] },
      GO { type := "Pow", name := "", inputs := ["x"], outputs := ["y"],
           args := [] } 0 ∉ op.outputs) ∧
    (GO { type := "Pow", name := "", inputs := ["x"], outputs := ["x"],
          args := [] } 0 =
        GI { type := "Pow", name := "", inputs := ["x"], outputs := ["x"],
             args := [] } 0 ∧
      ∀ op ∈ getPowGradientDefs
          { type := "Pow", name := "", inputs := ["x"], outputs := ["x"],
            args := [] },
        GO { type := "Pow", name := "", inputs := ["x"], outputs := ["x"],
             args := [] } 0 ∈ op.outputs) :=
  ⟨(pow_gradient_outputs_only_gi
      { type := "Pow", name := "", inputs := ["x"], outputs := ["y"],
        args := [] }).2.1 (by decide),
   (pow_gradient_outputs_only_gi
      { type := "Pow", name := "", inputs := ["x"], outputs := ["x"],
        args := [] }).2.2 (by decide)⟩

end Caffe2
